import Mathlib

set_option linter.unusedVariables false

/-!
Shallow embedding of the wiki-chat-app backend (FastAPI + Cohere chat gateway).

The embedding translates the three substantive modules:
  * `app/services/provider_client.py` — the `chat_stream` orchestrator,
  * `app/services/conversation_store.py` — the in-memory history store,
  * `app/services/wikipedia_tool.py` — the two-phase Wikipedia lookup client.

External, non-deterministic collaborators (the Cohere chat endpoint, the
Wikipedia HTTP API) are modelled as oracles supplying one outcome per call
site: either a returned value or a raised exception.  Python exceptions are
modelled as `Except String`; exception messages are fixed stand-in strings
(the orchestrator only forwards `str(exc)` opaquely).  Python `float` time
is modelled as `Int` (the code only compares clock differences against a
TTL).  Python dicts are modelled as association lists with distinct keys,
in insertion order.
-/

/-- JSON-like values, modelling the Python values produced by `json.loads`
and carried inside provider tool-call payloads and Wikipedia API bodies.
Numbers are modelled as `Int` (no code under verification computes with
fractional values). -/
inductive JsonVal where
  | obj (fields : List (String × JsonVal))
  | arr (items : List JsonVal)
  | jstr (s : String)
  | jnum (n : Int)
  | jbool (b : Bool)
  | jnull

/-- Lookup of a key in a modelled Python dict (first binding; keys are
assumed distinct, as in a real dict). -/
def jLookup {α : Type} (kvs : List (String × α)) (k : String) : Option α :=
  (kvs.find? (fun p => p.1 == k)).map (fun p => p.2)

/-- Python truthiness of a JSON-like value (`if not x` tests). -/
def jTruthy : JsonVal → Bool
  | .obj fs => !fs.isEmpty
  | .arr l => !l.isEmpty
  | .jstr s => !s.isEmpty
  | .jnum n => n != 0
  | .jbool b => b
  | .jnull => false

/-- Python `str()` of a JSON-like value.  Scalar renderings are exact;
composite renderings are abbreviated stand-ins (no verified claim observes
the rendering of a composite value). -/
def pyToStr : JsonVal → String
  | .jstr s => s
  | .jnum n => toString n
  | .jbool true => "True"
  | .jbool false => "False"
  | .jnull => "None"
  | .obj _ => "PyDictRepr"
  | .arr _ => "PyListRepr"

/-- Python `v.get(k, default)`: succeeds only on dicts, raising
`AttributeError` on any other value. -/
def pyDictGet (v : JsonVal) (k : String) (default : JsonVal) : Except String JsonVal :=
  match v with
  | .obj fs => .ok ((jLookup fs k).getD default)
  | _ => .error "AttributeError: object has no attribute get"

/-- Python `v[k]` string indexing: `KeyError` when the key is missing,
`TypeError` when the value is not a dict. -/
def pyIndex (v : JsonVal) (k : String) : Except String JsonVal :=
  match v with
  | .obj fs =>
    match jLookup fs k with
    | some x => .ok x
    | none => .error "KeyError"
  | _ => .error "TypeError: value is not subscriptable"

/-- Python iteration over a value: lists yield items, strings yield
one-character strings, dicts yield their keys, everything else raises
`TypeError`. -/
def pyIter : JsonVal → Except String (List JsonVal)
  | .arr l => .ok l
  | .jstr s => .ok (s.data.map (fun c => .jstr (String.mk [c])))
  | .obj fs => .ok (fs.map (fun p => .jstr p.1))
  | _ => .error "TypeError: value is not iterable"

/-- The `tool_call.function.arguments` payload handed back by the provider
SDK.  `json.loads` (Python stdlib, not repository code) is modelled by a
string payload carrying its parse result (`none` models a
`json.JSONDecodeError`).  A non-string payload is either a Python dict
(used as-is by the code) or some other value, of which the code can only
observe failure of `.get`. -/
inductive ArgPayload where
  | pstr (raw : String) (parsed : Option JsonVal)
  | pdict (fields : List (String × JsonVal))
  | pother (reprStr : String)

/-- provider_client.py lines 262-265: `tool_params = json.loads(args) if
isinstance(args, str) else args`, with `(json.JSONDecodeError, TypeError)`
degrading to `{"query": str(args)}`; merged with the subsequent
`tool_params.get(...)` dispatch, which raises `AttributeError` whenever
`tool_params` is not a dict (a string parsing to a JSON non-object, or a
non-string non-dict payload). -/
def loadToolParams : ArgPayload → Except String (List (String × JsonVal))
  | .pstr raw none => .ok [("query", .jstr raw)]
  | .pstr _ (some (.obj fs)) => .ok fs
  | .pstr _ (some _) => .error "AttributeError: object has no attribute get"
  | .pdict fs => .ok fs
  | .pother _ => .error "AttributeError: object has no attribute get"

/-- provider_client.py line 267: `query = tool_params.get("query", "")`,
followed by construction of the `tool` stream event whose pydantic model
declares `query: Optional[str]`.  A missing field defaults to the empty
string, an explicit JSON `null` becomes Python `None` (accepted by the
`Optional` field), and any other non-string value is rejected by pydantic
validation when the event object is constructed (modelled as a raised
exception). -/
def queryOfParams (fs : List (String × JsonVal)) : Except String (Option String) :=
  match jLookup fs "query" with
  | none => .ok (some "")
  | some (.jstr s) => .ok (some s)
  | some .jnull => .ok none
  | some _ => .error "ValidationError: query is not a string"

/-- One `{role, content}` entry of the provider message list. -/
structure ChatMsg where
  role : String
  content : String

/-- `ChatRequest` from app/core/models.py (the fields `chat_stream` reads).
`temperature` is a pass-through float never computed with; it is carried
opaquely as its decimal literal. -/
structure ChatRequest where
  message : String
  chat_id : Option String := none
  use_wikipedia : Bool := false
  model : Option String := none
  max_tokens : Option Nat := none
  temperature : Option String := none

/-- The keyword-argument dict passed to `self._client.chat(**params)`.
Optional keys are `Option`; `tools` is `true` when the single constant
Wikipedia tool definition is attached (its content is fixed), and
`strict_tools` mirrors the flag set alongside it. -/
structure ChatParams where
  messages : List ChatMsg
  model : String
  temperature : Option String
  max_tokens : Option Nat
  tools : Bool
  strict_tools : Bool
  tool_choice : Option String

/-- provider_client.py `_build_chat_params`. -/
def buildChatParams (req : ChatRequest) (defaultModel : String) (messages : List ChatMsg) : ChatParams :=
  { messages := messages
    model := req.model.getD defaultModel
    temperature := req.temperature
    max_tokens := req.max_tokens
    tools := req.use_wikipedia
    strict_tools := req.use_wikipedia
    tool_choice := none }

/-- provider_client.py lines 302-304: `final_params.pop("tools", None)`,
`final_params.pop("strict_tools", None)`, `final_params["tool_choice"] =
"none"`. -/
def noToolsFinal (p : ChatParams) : ChatParams :=
  { p with tools := false, strict_tools := false, tool_choice := some "none" }

/-- System primer prepended when Wikipedia tool use is enabled
(provider_client.py lines 240-247). -/
def primerText : String :=
  "You can call the function tool named \x27wikipedia_search\x27 to look up facts on Wikipedia. Use it only when it helps answer the user. Do not invent or call any tools not provided."

/-- provider_client.py lines 238-248: the initial message list (optional
system primer, then the current user message). -/
def initialMessages (req : ChatRequest) : List ChatMsg :=
  (if req.use_wikipedia then [⟨"system", primerText⟩] else []) ++ [⟨"user", req.message⟩]

/-- The fields of a Wikipedia search result dict read by
`_format_wikipedia_results`. -/
structure WikiResult where
  title : String
  extract : String
  url : String

/-- One numbered entry of `_format_wikipedia_results` (provider_client.py
lines 380-383): title, extract truncated to 300 characters with an
ellipsis, and URL. -/
def wikiEntry (i : Nat) (r : WikiResult) : String :=
  toString i ++ ". **" ++ r.title ++ "**\n   Summary: " ++ r.extract.take 300 ++
    (if 300 < r.extract.length then "..." else "") ++ "\n   URL: " ++ r.url ++ "\n\n"

/-- provider_client.py `_format_wikipedia_results`. -/
def formatWikipediaResults (results : List WikiResult) : String :=
  if results.isEmpty then "No Wikipedia articles found for this query."
  else "Wikipedia Search Results:\n\n" ++
    String.join (results.enum.map (fun p => wikiEntry (p.1 + 1) p.2))

/-- One provider tool invocation (`tool_call.function.name` /
`tool_call.function.arguments`). -/
structure ToolCall where
  name : String
  arguments : ArgPayload

/-- The observable shape of a Cohere chat response.  The duck-typed probes
`hasattr(resp, "message") and hasattr(resp.message, "tool_calls") and
resp.message.tool_calls` reduce to the truthiness of the tool-call list,
and likewise for `message.content`, so an absent attribute and an
empty/None list are identified.  A content block contributes its `text`
attribute (`none` when absent; the empty string is falsy like `None`). -/
structure ChatResponse where
  toolCalls : List ToolCall
  content : List (Option String)

/-- The tagged stream events (`StreamingChatResponse.type` in
app/core/models.py). -/
inductive StreamEvent where
  | chatId (id : String)
  | text (chunk : String)
  | tool (query : Option String)
  | done
  | error (message : String)

deriving instance DecidableEq for StreamEvent

def StreamEvent.isText : StreamEvent → Bool
  | .text _ => true
  | _ => false

def StreamEvent.isToolEvent : StreamEvent → Bool
  | .tool _ => true
  | _ => false

/-- The side effects a chat turn can perform, recorded in call order.
Conversation-store operations are part of the alphabet so that their
absence from `chat_stream`'s trace is statable: `conversation_store.py`
defines the store, but `provider_client.py` never imports or invokes it. -/
inductive Effect where
  | providerCall (params : ChatParams)
  | wikiSearch (query : Option String) (limit : JsonVal)
  | storeAppend (chat_id : String) (role : String) (content : String)

def Effect.isProviderCall : Effect → Bool
  | .providerCall _ => true
  | _ => false

def Effect.isWikiSearch : Effect → Bool
  | .wikiSearch _ _ => true
  | _ => false

def Effect.isStoreAppend : Effect → Bool
  | .storeAppend _ _ _ => true
  | _ => false

/-- Oracle for the I/O seams of one chat turn: the initial provider call,
the post-tool final call and its single retry, and the n-th Wikipedia
lookup.  `Except.error` models a raised exception. -/
structure ProviderEnv where
  initial : Except String ChatResponse
  finalFirst : Except String ChatResponse
  finalRetry : Except String ChatResponse
  wiki : Nat → Except String (List WikiResult)

/-- Consecutive 10-character groups of a character list (provider_client.py
lines 324-326: `for i in range(0, len(text), chunk_size)` with
`chunk_size = 10`).  The loop consumes at least one character per
iteration, so it is phrased with a structural fuel argument instantiated
with the list's length, keeping the definition computable by reduction. -/
def chunkChars : Nat → List Char → List (List Char)
  | _, [] => []
  | 0, _ :: _ => []
  | fuel + 1, c :: cs => (c :: cs).take 10 :: chunkChars fuel ((c :: cs).drop 10)

/-- The 10-character chunks of a string, in left-to-right order. -/
def chunksOf10 (s : String) : List String :=
  (chunkChars s.data.length s.data).map (fun cs => String.mk cs)

/-- Truthiness filter on a content block: `getattr(block, "text", None)`
guarded by Python truthiness, so an absent or empty text yields nothing. -/
def blockText : Option String → Option String
  | some s => if s.isEmpty then none else some s
  | none => none

/-- Streaming of a content-block list: each block carrying usable text is
emitted as its 10-character chunks, in order; blocks without text are
skipped. -/
def streamBlocks : List (Option String) → List StreamEvent
  | [] => []
  | b :: rest =>
    (match blockText b with
     | some t => (chunksOf10 t).map StreamEvent.text
     | none => []) ++ streamBlocks rest

/-- Fallback sentence of the tool path (provider_client.py line 331). -/
def apologyText : String := "I found information but couldn\x27t format a response."

/-- Streaming of the tool path's final response (provider_client.py lines
316-331): when the content list is empty the fixed apology is emitted as a
single text event, otherwise the blocks are streamed. -/
def streamFinal (fr : ChatResponse) : List StreamEvent :=
  if fr.content.isEmpty then [StreamEvent.text apologyText] else streamBlocks fr.content

/-- Result of the tool-invocation loop: events and effects produced so
far, the next Wikipedia-call index, and either the accumulated
`combined_results` string or the exception that aborted the loop. -/
structure ToolLoopOut where
  events : List StreamEvent
  effects : List Effect
  nextIdx : Nat
  result : Except String String

/-- provider_client.py lines 259-289: the `for tool_call in
response.message.tool_calls` loop.  Invocations not named
`wikipedia_search` are skipped.  For each matching invocation the
arguments are parsed, a `tool` event is emitted, the lookup runs (its
outcome supplied by the oracle), and the formatted results are appended to
`combined_results` followed by a newline. -/
def runToolCalls (env : ProviderEnv) : List ToolCall → Nat → String → ToolLoopOut
  | [], idx, acc => ⟨[], [], idx, .ok acc⟩
  | tc :: rest, idx, acc =>
    if tc.name = "wikipedia_search" then
      match loadToolParams tc.arguments with
      | .error m => ⟨[], [], idx, .error m⟩
      | .ok fs =>
        match queryOfParams fs with
        | .error m => ⟨[], [], idx, .error m⟩
        | .ok q =>
          let lim := (jLookup fs "limit").getD (JsonVal.jnum 3)
          match env.wiki idx with
          | .error m => ⟨[StreamEvent.tool q], [Effect.wikiSearch q lim], idx + 1, .error m⟩
          | .ok results =>
            let out := runToolCalls env rest (idx + 1)
              (acc ++ formatWikipediaResults results ++ "\n")
            ⟨StreamEvent.tool q :: out.events, Effect.wikiSearch q lim :: out.effects,
              out.nextIdx, out.result⟩
    else runToolCalls env rest idx acc

/-- Header of the synthesized system context message (provider_client.py
line 295). -/
def contextHeader : String := "Relevant information from Wikipedia (use as context):\n\n"

/-- Trailer of the synthesized system context message (provider_client.py
line 296). -/
def contextFooter : String :=
  "\nPlease answer the user\x27s last question directly using this context. Do not call any tools."

/-- Python `str.strip()`: drop leading and trailing whitespace
(`Char.isWhitespace` covers the ASCII whitespace the code can produce
here; the stripped text is built from the renderer's output, whose edges
are newlines and printable characters). -/
def pyStrip (s : String) : String :=
  String.mk (((s.data.dropWhile Char.isWhitespace).reverse.dropWhile
    Char.isWhitespace).reverse)

/-- provider_client.py lines 292-298: the system turn injecting the
combined rendered lookup results (`combined_results.strip()`). -/
def contextMsg (combined : String) : ChatMsg :=
  ⟨"system", contextHeader ++ pyStrip combined ++ contextFooter⟩

/-- Events, effects and optional uncaught exception of the body of
`chat_stream`'s `try` block. -/
structure BodyOut where
  events : List StreamEvent
  effects : List Effect
  err : Option String

/-- The body of `chat_stream`'s `try` block (provider_client.py lines
237-357): initial call, branch on tool calls, tool loop, context
injection, final call with one retry on failure, then streaming. -/
def runBody (req : ChatRequest) (defaultModel : String) (env : ProviderEnv) : BodyOut :=
  let params := buildChatParams req defaultModel (initialMessages req)
  match env.initial with
  | .error m => ⟨[], [.providerCall params], some m⟩
  | .ok resp =>
    if resp.toolCalls.isEmpty then
      ⟨streamBlocks resp.content, [.providerCall params], none⟩
    else
      let loop := runToolCalls env resp.toolCalls 0 ""
      match loop.result with
      | .error m => ⟨loop.events, .providerCall params :: loop.effects, some m⟩
      | .ok combined =>
        let fparams := noToolsFinal
          (buildChatParams req defaultModel (initialMessages req ++ [contextMsg combined]))
        match env.finalFirst with
        | .ok fr =>
          ⟨loop.events ++ streamFinal fr,
            .providerCall params :: loop.effects ++ [.providerCall fparams], none⟩
        | .error _ =>
          match env.finalRetry with
          | .ok fr =>
            ⟨loop.events ++ streamFinal fr,
              .providerCall params :: loop.effects ++ [.providerCall fparams, .providerCall fparams],
              none⟩
          | .error m2 =>
            ⟨loop.events,
              .providerCall params :: loop.effects ++ [.providerCall fparams, .providerCall fparams],
              some m2⟩

/-- The terminal event: `done` when the try block completed, `error`
carrying `str(exc)` otherwise (provider_client.py lines 357 and 372). -/
def terminalOf : Option String → StreamEvent
  | none => .done
  | some m => .error m

/-- provider_client.py line 222: `chat_id = req.chat_id or str(uuid.uuid4())`
(Python `or`: an absent or empty id is replaced by the fresh UUID). -/
def chatIdOf (req : ChatRequest) (freshId : String) : String :=
  match req.chat_id with
  | some s => if s.isEmpty then freshId else s
  | none => freshId

/-- The full observable outcome of one chat turn. -/
structure TurnOut where
  events : List StreamEvent
  effects : List Effect

/-- provider_client.py `chat_stream` (lines 219-372): yields the chat id,
runs the try-block body, and closes the stream with exactly one terminal
event - `done` on success, `error` when any exception escaped the body.
`freshId` stands for `str(uuid.uuid4())` and `defaultModel` for
`settings.default_model`. -/
def ProviderClient.chat_stream (req : ChatRequest) (freshId : String) (defaultModel : String)
    (env : ProviderEnv) : TurnOut :=
  let body := runBody req defaultModel env
  ⟨StreamEvent.chatId (chatIdOf req freshId) :: body.events ++ [terminalOf body.err],
    body.effects⟩

/-- One stored conversation turn (`{"role": ..., "content": ...}` in
conversation_store.py). -/
structure StoredMsg where
  role : String
  content : String

/-- One conversation record: message list and `last_updated` timestamp.
`time.time()` values are modelled as `Int` seconds. -/
structure ConvData where
  messages : List StoredMsg
  last_updated : Int

/-- conversation_store.py `ConversationStore`: the `_conversations` dict
(modelled as an association list in insertion order with distinct keys)
and `_ttl_seconds`. -/
structure ConversationStore where
  conversations : List (String × ConvData)
  ttl_seconds : Int

/-- The store constructed by `ConversationStore(ttl_hours)` (default 24). -/
def ConversationStore.mkStore (ttl_hours : Int) : ConversationStore :=
  ⟨[], ttl_hours * 3600⟩

/-- conversation_store.py `add_message`: create the record if absent
(inserted at the end, as Python dicts preserve insertion order), append
the turn, and set `last_updated` to the current time. -/
def ConversationStore.add_message (st : ConversationStore) (chat_id : String)
    (role : String) (content : String) (now : Int) : ConversationStore :=
  let convs : List (String × ConvData) :=
    match jLookup st.conversations chat_id with
    | none => st.conversations ++ [(chat_id, ConvData.mk [] now)]
    | some _ => st.conversations
  ⟨convs.map (fun p =>
      if p.1 == chat_id then (p.1, ConvData.mk (p.2.messages ++ [⟨role, content⟩]) now) else p),
    st.ttl_seconds⟩

/-- conversation_store.py `_cleanup_expired`: delete every record with
`current_time - last_updated > ttl_seconds`. -/
def ConversationStore.cleanupExpired (st : ConversationStore) (now : Int) : ConversationStore :=
  ⟨st.conversations.filter (fun p => decide (now - p.2.last_updated ≤ st.ttl_seconds)),
    st.ttl_seconds⟩

/-- Python `l[-n:]` tail slicing for a non-negative count: the last `n`
elements - except that `l[-0:]` is `l[0:]`, the whole list. -/
def pyTailSlice {α : Type} (l : List α) (n : Nat) : List α :=
  if n = 0 then l else l.drop (l.length - n)

/-- conversation_store.py `get_messages`: lazy expiry sweep, empty list
for an unknown id, and `messages[-max_messages:] if len(messages) >
max_messages else messages`. -/
def ConversationStore.get_messages (st : ConversationStore) (chat_id : String)
    (max_messages : Nat) (now : Int) : List StoredMsg :=
  let st1 := st.cleanupExpired now
  match jLookup st1.conversations chat_id with
  | none => []
  | some d =>
    if max_messages < d.messages.length then pyTailSlice d.messages max_messages
    else d.messages

/-- Outcome of one `session.get(...)` call in wikipedia_tool.py: either a
raised exception (network error, timeout, cancellation, ...) or a response
carrying an HTTP status and the outcome of `.json()` (`Except.error` when
the payload is not valid JSON). -/
inductive HttpOutcome where
  | raises (msg : String)
  | resp (status : Nat) (body : Except String JsonVal)

/-- Oracle for one `WikipediaSearchTool.search` call: the outcomes of the
title-search request and the extract request, plus `urllib.parse.quote`
(Python stdlib percent-encoding, passed in abstractly; no claim observes
it). -/
structure WikiEnv where
  first : HttpOutcome
  second : HttpOutcome
  urlquote : String → String

/-- The result dict built for one page by wikipedia_tool.py lines 117-124.
`snippet` is forced to `String` by the `.replace` calls; the remaining
values are carried as read. -/
structure WikiPage where
  title : JsonVal
  snippet : String
  extract : JsonVal
  url : JsonVal
  wordcount : JsonVal
  size : JsonVal

/-- wikipedia_tool.py line 119: `search_result.get("snippet",
"").replace(...)` - the two span-tag removals; any non-string snippet
value makes `.replace` raise `AttributeError`. -/
def snippetClean (v : JsonVal) : Except String String :=
  match v with
  | .jstr s =>
    .ok ((s.replace "<span class=\"searchmatch\">" "").replace "</span>" "")
  | _ => .error "AttributeError: object has no attribute replace"

/-- wikipedia_tool.py line 71: `search_data.get("query", {}).get("search", [])`. -/
def hitsOf (j : JsonVal) : Except String JsonVal :=
  match pyDictGet j "query" (.obj []) with
  | .error m => .error m
  | .ok q => pyDictGet q "search" (.arr [])

/-- wikipedia_tool.py line 109: `content_data.get("query", {}).get("pages", {})`. -/
def pagesOf (j : JsonVal) : Except String JsonVal :=
  match pyDictGet j "query" (.obj []) with
  | .error m => .error m
  | .ok q => pyDictGet q "pages" (.obj [])

/-- wikipedia_tool.py line 81: `[str(result["pageid"]) for result in
search_results]`. -/
def pageIdsOf (hits : List JsonVal) : Except String (List String) :=
  hits.mapM (fun h => (pyIndex h "pageid").map pyToStr)

/-- wikipedia_tool.py lines 113-125: the result dict for one search hit,
evaluated in source order (`pageid` index, `pages.get`, `title` index,
snippet cleaning, `extract`/`fullurl` lookups - the `fullurl` default
eagerly evaluates `quote(title)`, which requires a string title - then
`wordcount` and `size`). -/
def buildOne (env : WikiEnv) (pages : JsonVal) (h : JsonVal) : Except String WikiPage :=
  match pyIndex h "pageid" with
  | .error m => .error m
  | .ok pid =>
    match pyDictGet pages (pyToStr pid) (.obj []) with
    | .error m => .error m
    | .ok pageData =>
      match pyIndex h "title" with
      | .error m => .error m
      | .ok title =>
        match pyDictGet h "snippet" (.jstr "") with
        | .error m => .error m
        | .ok snipVal =>
          match snippetClean snipVal with
          | .error m => .error m
          | .ok snip =>
            match pyDictGet pageData "extract" (.jstr "") with
            | .error m => .error m
            | .ok extract =>
              match title with
              | .jstr t =>
                match pyDictGet pageData "fullurl"
                    (.jstr ("https://en.wikipedia.org/wiki/" ++ env.urlquote t)) with
                | .error m => .error m
                | .ok url =>
                  match pyDictGet h "wordcount" (.jnum 0) with
                  | .error m => .error m
                  | .ok wc =>
                    match pyDictGet h "size" (.jnum 0) with
                    | .error m => .error m
                    | .ok sz => .ok ⟨title, snip, extract, url, wc, sz⟩
              | _ => .error "TypeError: quote requires a string"

/-- The `try` block of wikipedia_tool.py `search` (lines 45-136): phase 1
resolves the query to ranked hits (empty or non-200 or malformed outcomes
exit early), phase 2 fetches extracts and builds the result dicts.  Every
`Except.error` models an exception that the surrounding handlers catch. -/
def searchBody (env : WikiEnv) (query : String) (limit : Int) :
    Except String (List WikiPage) :=
  match env.first with
  | .raises m => .error m
  | .resp status body =>
    if status = 200 then
      match body with
      | .error m => .error m
      | .ok j =>
        match hitsOf j with
        | .error m => .error m
        | .ok hits =>
          if jTruthy hits then
            match pyIter hits with
            | .error m => .error m
            | .ok hitList =>
              match pageIdsOf hitList with
              | .error m => .error m
              | .ok _pids =>
                match env.second with
                | .raises m => .error m
                | .resp status2 body2 =>
                  if status2 = 200 then
                    match body2 with
                    | .error m => .error m
                    | .ok j2 =>
                      match pagesOf j2 with
                      | .error m => .error m
                      | .ok pages => hitList.mapM (buildOne env pages)
                  else .ok []
          else .ok []
    else .ok []

/-- wikipedia_tool.py `search`: the try block wrapped in the
`asyncio.TimeoutError` and `Exception` handlers, both of which return the
empty list - so the function is total and never propagates an exception. -/
def WikipediaSearchTool.search (env : WikiEnv) (query : String) (limit : Int) :
    List WikiPage :=
  match searchBody env query limit with
  | .ok r => r
  | .error _ => []

/-- A failed transport outcome of one HTTP call: a raised exception, a
non-200 status, or a body that is not valid JSON. -/
def httpFails : HttpOutcome → Prop
  | .raises _ => True
  | .resp status body => status ≠ 200 ∨ ∃ m, body = Except.error m

/-- A phase-1 payload that parses as JSON but yields no usable hit list:
extraction raises, or the extracted hits are empty/falsy. -/
def firstPayloadBad (env : WikiEnv) : Prop :=
  ∃ j, env.first = HttpOutcome.resp 200 (Except.ok j) ∧
    ((∃ m, hitsOf j = Except.error m) ∨
      (∀ h, hitsOf j = Except.ok h → jTruthy h = false))

/-! ### Helper lemmas -/

theorem chunkChars_nil (fuel : Nat) : chunkChars fuel [] = [] := by
  cases fuel <;> rfl

theorem chunkChars_ne_nil (fuel : Nat) (l : List Char) (hf : l.length ≤ fuel)
    (hl : l ≠ []) : chunkChars fuel l ≠ [] := by
  cases fuel with
  | zero =>
    have : l = [] := List.eq_nil_of_length_eq_zero (Nat.le_zero.mp hf)
    exact absurd this hl
  | succ n =>
    cases l with
    | nil => exact absurd rfl hl
    | cons c cs => simp [chunkChars]

theorem chunkChars_flatten : ∀ (fuel : Nat) (l : List Char), l.length ≤ fuel →
    (chunkChars fuel l).flatten = l := by
  intro fuel
  induction fuel with
  | zero =>
    intro l h
    have : l = [] := List.eq_nil_of_length_eq_zero (Nat.le_zero.mp h)
    subst this
    rfl
  | succ n ih =>
    intro l h
    cases l with
    | nil => rfl
    | cons c cs =>
      have hlen : ((c :: cs).drop 10).length ≤ n := by
        simp only [List.length_drop, List.length_cons]
        simp only [List.length_cons] at h
        omega
      rw [chunkChars]
      simp only [List.flatten_cons, ih _ hlen, List.take_append_drop]

theorem chunkChars_mem_len : ∀ (fuel : Nat) (l : List Char), l.length ≤ fuel →
    ∀ c ∈ chunkChars fuel l, 0 < c.length ∧ c.length ≤ 10 := by
  intro fuel
  induction fuel with
  | zero =>
    intro l h
    have : l = [] := List.eq_nil_of_length_eq_zero (Nat.le_zero.mp h)
    subst this
    simp [chunkChars_nil]
  | succ n ih =>
    intro l h
    cases l with
    | nil => simp [chunkChars_nil]
    | cons c cs =>
      rw [chunkChars]
      intro d hd
      rcases List.mem_cons.mp hd with rfl | hd
      · constructor
        · simp [List.length_take]
        · simp [List.length_take]
      · have hlen : ((c :: cs).drop 10).length ≤ n := by
          simp only [List.length_drop, List.length_cons]
          simp only [List.length_cons] at h
          omega
        exact ih _ hlen d hd

theorem chunkChars_dropLast_len : ∀ (fuel : Nat) (l : List Char), l.length ≤ fuel →
    ∀ c ∈ (chunkChars fuel l).dropLast, c.length = 10 := by
  intro fuel
  induction fuel with
  | zero =>
    intro l h
    have : l = [] := List.eq_nil_of_length_eq_zero (Nat.le_zero.mp h)
    subst this
    simp [chunkChars_nil]
  | succ n ih =>
    intro l h
    cases l with
    | nil => simp [chunkChars_nil]
    | cons c cs =>
      rw [chunkChars]
      have hlen : ((c :: cs).drop 10).length ≤ n := by
        simp only [List.length_drop, List.length_cons]
        simp only [List.length_cons] at h
        omega
      by_cases hrest : (c :: cs).drop 10 = []
      · rw [hrest, chunkChars_nil]
        simp
      · have hne : chunkChars n ((c :: cs).drop 10) ≠ [] :=
          chunkChars_ne_nil n _ hlen hrest
        rw [List.dropLast_cons_of_ne_nil hne]
        intro d hd
        rcases List.mem_cons.mp hd with rfl | hd
        · have hlong : 10 < (c :: cs).length := by
            by_contra hle
            exact hrest (List.drop_eq_nil_of_le (by omega))
          simp only [List.length_take, List.length_cons] at hlong ⊢
          omega
        · exact ih _ hlen d hd

theorem foldl_append_mk (ls : List (List Char)) (acc : List Char) :
    List.foldl (fun r s => r ++ s) (String.mk acc) (ls.map (fun cs => String.mk cs)) =
      String.mk (acc ++ ls.flatten) := by
  induction ls generalizing acc with
  | nil => simp
  | cons hd tl ih =>
    have hstep : String.mk acc ++ String.mk hd = String.mk (acc ++ hd) := rfl
    simp only [List.map_cons, List.foldl_cons, hstep, ih, List.flatten_cons]
    simp

theorem join_chunksOf10 (s : String) : String.join (chunksOf10 s) = s := by
  have h := foldl_append_mk (chunkChars s.data.length s.data) []
  simp only [List.nil_append] at h
  show List.foldl (fun r t => r ++ t) "" (chunksOf10 s) = s
  have hempty : ("" : String) = String.mk [] := rfl
  rw [chunksOf10, hempty, h, chunkChars_flatten s.data.length s.data (Nat.le_refl _)]

theorem length_mk_chunk (cs : List Char) : (String.mk cs).length = cs.length := rfl

theorem chunksOf10_len (s : String) :
    (∀ c ∈ (chunksOf10 s).dropLast, c.length = 10) ∧
      (∀ c ∈ chunksOf10 s, 0 < c.length ∧ c.length ≤ 10) := by
  constructor
  · intro c hc
    rw [chunksOf10, ← List.map_dropLast] at hc
    rcases List.mem_map.mp hc with ⟨cs, hcs, rfl⟩
    rw [length_mk_chunk]
    exact chunkChars_dropLast_len s.data.length s.data (Nat.le_refl _) cs hcs
  · intro c hc
    rcases List.mem_map.mp hc with ⟨cs, hcs, rfl⟩
    rw [length_mk_chunk]
    exact chunkChars_mem_len s.data.length s.data (Nat.le_refl _) cs hcs

theorem streamBlocks_text (blocks : List (Option String)) :
    ∀ e ∈ streamBlocks blocks, e.isText = true := by
  induction blocks with
  | nil => simp [streamBlocks]
  | cons b rest ih =>
    intro e he
    rw [streamBlocks] at he
    rcases List.mem_append.mp he with h | h
    · rcases hb : blockText b with _ | t
      · rw [hb] at h
        simp at h
      · rw [hb] at h
        rcases List.mem_map.mp h with ⟨c, _, rfl⟩
        rfl
    · exact ih e h

theorem streamFinal_text (fr : ChatResponse) :
    ∀ e ∈ streamFinal fr, e.isText = true := by
  intro e he
  rw [streamFinal] at he
  by_cases h : fr.content.isEmpty
  · rw [if_pos h] at he
    simp at he
    subst he
    rfl
  · rw [if_neg h] at he
    exact streamBlocks_text fr.content e he

theorem runToolCalls_shape (env : ProviderEnv) (tcs : List ToolCall) :
    ∀ (idx : Nat) (acc : String),
      (∀ e ∈ (runToolCalls env tcs idx acc).events, e.isToolEvent = true) ∧
        (∀ f ∈ (runToolCalls env tcs idx acc).effects, f.isWikiSearch = true) := by
  induction tcs with
  | nil => intro idx acc; simp [runToolCalls]
  | cons tc rest ih =>
    intro idx acc
    rw [runToolCalls]
    by_cases hname : tc.name = "wikipedia_search"
    · rw [if_pos hname]
      rcases hl : loadToolParams tc.arguments with m | fs
      · simp [hl]
      · simp only [hl]
        rcases hq : queryOfParams fs with m | q
        · simp [hq]
        · simp only [hq]
          rcases hw : env.wiki idx with m | results
          · simp only [hw]
            refine ⟨?_, ?_⟩ <;> intro x hx <;> simp at hx <;> subst hx <;> rfl
          · simp only [hw]
            constructor
            · intro e he
              rcases List.mem_cons.mp he with rfl | he
              · rfl
              · exact (ih (idx + 1) (acc ++ formatWikipediaResults results ++ "\n")).1 e he
            · intro f hf
              rcases List.mem_cons.mp hf with rfl | hf
              · rfl
              · exact (ih (idx + 1) (acc ++ formatWikipediaResults results ++ "\n")).2 f hf
    · rw [if_neg hname]
      exact ih idx acc

/-- When no invocation is named `wikipedia_search`, the tool loop performs
nothing: no events, no lookups, and the accumulator is unchanged. -/
theorem runToolCalls_noMatch (env : ProviderEnv) (tcs : List ToolCall)
    (h : ∀ tc ∈ tcs, tc.name ≠ "wikipedia_search") :
    ∀ (idx : Nat) (acc : String), runToolCalls env tcs idx acc = ⟨[], [], idx, .ok acc⟩ := by
  induction tcs with
  | nil => intro idx acc; rfl
  | cons tc rest ih =>
    intro idx acc
    have hname : tc.name ≠ "wikipedia_search" := h tc (List.mem_cons_self tc rest)
    rw [runToolCalls, if_neg hname]
    exact ih (fun t ht => h t (List.mem_cons_of_mem tc ht)) idx acc

theorem runBody_events_mid (req : ChatRequest) (dm : String) (env : ProviderEnv) :
    ∀ e ∈ (runBody req dm env).events, e.isText = true ∨ e.isToolEvent = true := by
  intro e he
  rw [runBody] at he
  rcases hi : env.initial with m | resp <;> simp only [hi] at he
  · simp at he
  · by_cases hempty : resp.toolCalls.isEmpty
    · rw [if_pos hempty] at he
      exact Or.inl (streamBlocks_text resp.content e he)
    · rw [if_neg hempty] at he
      have hloop := runToolCalls_shape env resp.toolCalls 0 ""
      rcases hr : (runToolCalls env resp.toolCalls 0 "").result with m | combined <;>
        simp only [hr] at he
      · exact Or.inr ((hloop.1) e he)
      · rcases hf1 : env.finalFirst with m1 | fr <;> simp only [hf1] at he
        · rcases hf2 : env.finalRetry with m2 | fr2 <;> simp only [hf2] at he
          · exact Or.inr ((hloop.1) e he)
          · rcases List.mem_append.mp he with h | h
            · exact Or.inr ((hloop.1) e h)
            · exact Or.inl (streamFinal_text fr2 e h)
        · rcases List.mem_append.mp he with h | h
          · exact Or.inr ((hloop.1) e h)
          · exact Or.inl (streamFinal_text fr e h)

theorem runBody_effects_shape (req : ChatRequest) (dm : String) (env : ProviderEnv) :
    ∀ f ∈ (runBody req dm env).effects, f.isProviderCall = true ∨ f.isWikiSearch = true := by
  intro f hf
  rw [runBody] at hf
  rcases hi : env.initial with m | resp <;> simp only [hi] at hf
  · simp at hf
    subst hf
    exact Or.inl rfl
  · by_cases hempty : resp.toolCalls.isEmpty
    · rw [if_pos hempty] at hf
      simp at hf
      subst hf
      exact Or.inl rfl
    · rw [if_neg hempty] at hf
      have hloop := runToolCalls_shape env resp.toolCalls 0 ""
      rcases hr : (runToolCalls env resp.toolCalls 0 "").result with m | combined <;>
        simp only [hr] at hf
      · rcases List.mem_cons.mp hf with rfl | hf
        · exact Or.inl rfl
        · exact Or.inr ((hloop.2) f hf)
      · rcases hf1 : env.finalFirst with m1 | fr <;> simp only [hf1] at hf
        · rcases hf2 : env.finalRetry with m2 | fr2 <;> simp only [hf2] at hf <;>
          · rcases List.mem_cons.mp hf with rfl | hf
            · exact Or.inl rfl
            · rcases List.mem_append.mp hf with h | h
              · exact Or.inr ((hloop.2) f h)
              · simp at h
                rcases h with rfl | rfl <;> exact Or.inl rfl
        · rcases List.mem_cons.mp hf with rfl | hf
          · exact Or.inl rfl
          · rcases List.mem_append.mp hf with h | h
            · exact Or.inr ((hloop.2) f h)
            · simp at h
              subst h
              exact Or.inl rfl

theorem getLast?_cons_concat {α : Type} (a b : α) (l : List α) :
    (a :: l ++ [b]).getLast? = some b :=
  List.getLast?_concat (a :: l)

/-! ### Claim theorems -/

/-- C1.  For every chat turn processed by `chat_stream`, and for every
behavior of the provider and lookup oracles (including raised exceptions
at every I/O seam), the emitted event sequence starts with exactly one
`chat_id` event, ends with exactly one terminal event (`done` xor
`error`), and every event strictly between them is a `text` or `tool`
event. -/
theorem chat_stream_event_envelope (req : ChatRequest) (freshId defaultModel : String)
    (env : ProviderEnv) :
    ∃ (mid : List StreamEvent) (last : StreamEvent),
      (ProviderClient.chat_stream req freshId defaultModel env).events =
        StreamEvent.chatId (chatIdOf req freshId) :: mid ++ [last] ∧
      (∀ e ∈ mid, e.isText = true ∨ e.isToolEvent = true) ∧
      (last = StreamEvent.done ∨ ∃ m, last = StreamEvent.error m) := by
  refine ⟨(runBody req defaultModel env).events,
    terminalOf (runBody req defaultModel env).err, rfl, ?_, ?_⟩
  · exact runBody_events_mid req defaultModel env
  · cases h : (runBody req defaultModel env).err with
    | none => exact Or.inl rfl
    | some m => exact Or.inr ⟨m, rfl⟩

/-- C1 witness: a concrete faulty turn (provider raises on the initial
call) instantiating the envelope theorem. -/
theorem chat_stream_event_envelope_witness :
    ∃ (mid : List StreamEvent) (last : StreamEvent),
      (ProviderClient.chat_stream ⟨"hi", some "c1", false, none, none, none⟩ "f" "m"
        ⟨Except.error "ConnectionError", Except.error "u", Except.error "u",
          fun _ => Except.error "u"⟩).events =
        StreamEvent.chatId (chatIdOf ⟨"hi", some "c1", false, none, none, none⟩ "f") ::
          mid ++ [last] ∧
      (∀ e ∈ mid, e.isText = true ∨ e.isToolEvent = true) ∧
      (last = StreamEvent.done ∨ ∃ m, last = StreamEvent.error m) :=
  chat_stream_event_envelope ⟨"hi", some "c1", false, none, none, none⟩ "f" "m"
    ⟨Except.error "ConnectionError", Except.error "u", Except.error "u",
      fun _ => Except.error "u"⟩

/-- C5.  The streamed chunks of any assistant text block partition the
text into consecutive chunks of exactly 10 characters (the last possibly
shorter but never empty), in left-to-right order: their concatenation
recovers the original text, and the events emitted for the block are
exactly one `text` event per chunk, in order. -/
theorem chunking_partitions_text (t : String) :
    String.join (chunksOf10 t) = t ∧
      (∀ c ∈ (chunksOf10 t).dropLast, c.length = 10) ∧
      (∀ c ∈ chunksOf10 t, 0 < c.length ∧ c.length ≤ 10) ∧
      streamBlocks [some t] = (chunksOf10 t).map StreamEvent.text := by
  refine ⟨join_chunksOf10 t, (chunksOf10_len t).1, (chunksOf10_len t).2, ?_⟩
  rw [streamBlocks, streamBlocks, blockText]
  by_cases h : t.isEmpty
  · rw [if_pos h]
    have ht : t = "" := (String.isEmpty_iff t).mp h
    subst ht
    simp [chunksOf10, chunkChars_nil]
  · rw [if_neg h]
    simp

/-- C5 witness: the 12-character block "Buzz Aldrin." splits into a
10-character chunk and a 2-character remainder. -/
theorem chunking_partitions_text_witness :
    String.join (chunksOf10 "Buzz Aldrin.") = "Buzz Aldrin." ∧
      (∀ c ∈ (chunksOf10 "Buzz Aldrin.").dropLast, c.length = 10) ∧
      (∀ c ∈ chunksOf10 "Buzz Aldrin.", 0 < c.length ∧ c.length ≤ 10) ∧
      streamBlocks [some "Buzz Aldrin."] = (chunksOf10 "Buzz Aldrin.").map StreamEvent.text :=
  chunking_partitions_text "Buzz Aldrin."


/-- C2 amended.  `chat_stream` never touches the Conversation Store: for
every request and every oracle behavior, the turn's effect trace contains
no store append.  The store is thus not updated once per completed turn -
it is not updated at all (neither the inbound user message nor the
assistant text is persisted). -/
theorem chat_stream_never_appends_store (req : ChatRequest) (freshId defaultModel : String)
    (env : ProviderEnv) :
    ((ProviderClient.chat_stream req freshId defaultModel env).effects.filter
      Effect.isStoreAppend) = [] := by
  rw [List.filter_eq_nil_iff]
  intro f hf
  have h := runBody_effects_shape req defaultModel env f hf
  cases f with
  | providerCall p => simp [Effect.isStoreAppend]
  | wikiSearch q lim => simp [Effect.isStoreAppend]
  | storeAppend c r co => simp [Effect.isProviderCall, Effect.isWikiSearch] at h

/-- C2 counterexample.  A concrete chat turn that completes with a `done`
terminal event performs no Conversation Store operation at all: neither
the inbound user message nor the assistant text is appended
(`provider_client.py` never imports or calls `conversation_store`),
contradicting the claim that the store is updated exactly once for the
turn. -/
theorem chat_stream_no_store_counterexample :
    (ProviderClient.chat_stream ⟨"hello", some "c2", false, none, none, none⟩ "f" "m"
      ⟨Except.ok ⟨[], [some "Hi there!"]⟩, Except.error "u", Except.error "u",
        fun _ => Except.error "u"⟩).events.getLast? = some StreamEvent.done ∧
    ((ProviderClient.chat_stream ⟨"hello", some "c2", false, none, none, none⟩ "f" "m"
      ⟨Except.ok ⟨[], [some "Hi there!"]⟩, Except.error "u", Except.error "u",
        fun _ => Except.error "u"⟩).effects.filter Effect.isStoreAppend).length = 0 :=
  ⟨by decide, by decide⟩

/-- C3 counterexample.  A tool-enabled turn (`use_wikipedia = true`) whose
initial provider response contains no usable lookup invocation performs
zero lookups - not exactly one proactive lookup keyed on the raw user
message - and still completes with `done`, streaming the initial
response's text directly. -/
theorem no_fallback_lookup_counterexample :
    (⟨"Who was the second person on the moon?", some "c3", true, none, none,
      none⟩ : ChatRequest).use_wikipedia = true ∧
    ((ProviderClient.chat_stream
      ⟨"Who was the second person on the moon?", some "c3", true, none, none, none⟩ "f" "m"
      ⟨Except.ok ⟨[], [some "Buzz Aldrin."]⟩, Except.error "u", Except.error "u",
        fun _ => Except.error "u"⟩).effects.filter Effect.isWikiSearch).length = 0 ∧
    (ProviderClient.chat_stream
      ⟨"Who was the second person on the moon?", some "c3", true, none, none, none⟩ "f" "m"
      ⟨Except.ok ⟨[], [some "Buzz Aldrin."]⟩, Except.error "u", Except.error "u",
        fun _ => Except.error "u"⟩).events.getLast? = some StreamEvent.done :=
  ⟨rfl, by decide, by decide⟩

/-- C3 amended.  No fallback lookup exists: whenever the initial provider
response contains no invocation named `wikipedia_search` (in particular
when it contains none at all, or only invocations with other names), the
turn performs zero lookups, regardless of `use_wikipedia`. -/
theorem no_usable_invocation_no_lookup (req : ChatRequest) (freshId defaultModel : String)
    (env : ProviderEnv) (resp : ChatResponse)
    (hinit : env.initial = Except.ok resp)
    (hnone : ∀ tc ∈ resp.toolCalls, tc.name ≠ "wikipedia_search") :
    ((ProviderClient.chat_stream req freshId defaultModel env).effects.filter
      Effect.isWikiSearch) = [] := by
  show ((runBody req defaultModel env).effects.filter Effect.isWikiSearch) = []
  rw [runBody]
  simp only [hinit]
  by_cases hempty : resp.toolCalls.isEmpty
  · rw [if_pos hempty]
    rfl
  · rw [if_neg hempty]
    have hloop := runToolCalls_noMatch env resp.toolCalls hnone 0 ""
    rw [hloop]
    rcases env.finalFirst with m1 | fr
    · rcases env.finalRetry with m2 | fr2 <;> rfl
    · rfl

/-- C3 amended witness: a tool-enabled turn whose initial response carries
one invocation named `weather` performs no lookup. -/
theorem no_usable_invocation_no_lookup_witness :
    ((ProviderClient.chat_stream ⟨"hi", some "c3w", true, none, none, none⟩ "f" "m"
      ⟨Except.ok ⟨[⟨"weather", ArgPayload.pdict []⟩], []⟩, Except.ok ⟨[], [some "ok"]⟩,
        Except.error "u", fun _ => Except.error "u"⟩).effects.filter
      Effect.isWikiSearch) = [] :=
  no_usable_invocation_no_lookup ⟨"hi", some "c3w", true, none, none, none⟩ "f" "m"
    ⟨Except.ok ⟨[⟨"weather", ArgPayload.pdict []⟩], []⟩, Except.ok ⟨[], [some "ok"]⟩,
      Except.error "u", fun _ => Except.error "u"⟩
    ⟨[⟨"weather", ArgPayload.pdict []⟩], []⟩ rfl
    (by intro tc htc; simp at htc; subst htc; simp)

/-- C4.  On the tool path, when the post-tool final provider call raises,
it is retried exactly once with identical parameters: the effect trace
ends with exactly two provider calls carrying the same parameter value
(preceded only by the initial call and the loop's lookups), nothing
follows them, and if the retry also fails the turn terminates with an
`error` event carrying the retry's exception, while a successful retry
terminates with `done`. -/
theorem final_call_retried_once (req : ChatRequest) (freshId defaultModel : String)
    (env : ProviderEnv) (resp : ChatResponse) (m1 combined : String)
    (hinit : env.initial = Except.ok resp)
    (htc : resp.toolCalls.isEmpty = false)
    (hloop : (runToolCalls env resp.toolCalls 0 "").result = Except.ok combined)
    (hfail : env.finalFirst = Except.error m1) :
    ∃ fp : ChatParams,
      (ProviderClient.chat_stream req freshId defaultModel env).effects =
        Effect.providerCall (buildChatParams req defaultModel (initialMessages req)) ::
          (runToolCalls env resp.toolCalls 0 "").effects ++
          [Effect.providerCall fp, Effect.providerCall fp] ∧
      (∀ f ∈ (runToolCalls env resp.toolCalls 0 "").effects, f.isProviderCall = false) ∧
      (∀ m2, env.finalRetry = Except.error m2 →
        (ProviderClient.chat_stream req freshId defaultModel env).events.getLast? =
          some (StreamEvent.error m2)) ∧
      (∀ fr, env.finalRetry = Except.ok fr →
        (ProviderClient.chat_stream req freshId defaultModel env).events.getLast? =
          some StreamEvent.done) := by
  refine ⟨noToolsFinal (buildChatParams req defaultModel
    (initialMessages req ++ [contextMsg combined])), ?_, ?_, ?_, ?_⟩
  · show (runBody req defaultModel env).effects = _
    rw [runBody]
    simp only [hinit, htc, Bool.false_eq_true, if_false, hloop, hfail]
    rcases env.finalRetry with m2 | fr <;> rfl
  · intro f hf
    have h := (runToolCalls_shape env resp.toolCalls 0 "").2 f hf
    cases f with
    | providerCall p => simp [Effect.isWikiSearch] at h
    | wikiSearch q lim => rfl
    | storeAppend c r co => simp [Effect.isWikiSearch] at h
  · intro m2 h2
    show (StreamEvent.chatId (chatIdOf req freshId) ::
      (runBody req defaultModel env).events ++
        [terminalOf (runBody req defaultModel env).err]).getLast? = _
    rw [runBody]
    simp only [hinit, htc, Bool.false_eq_true, if_false, hloop, hfail, h2]
    exact getLast?_cons_concat _ _ _
  · intro fr h2
    show (StreamEvent.chatId (chatIdOf req freshId) ::
      (runBody req defaultModel env).events ++
        [terminalOf (runBody req defaultModel env).err]).getLast? = _
    rw [runBody]
    simp only [hinit, htc, Bool.false_eq_true, if_false, hloop, hfail, h2]
    exact getLast?_cons_concat _ _ _

/-- C4 witness: a concrete tool-path turn (one invocation named `weather`,
so the loop succeeds with an empty context) whose final call fails twice,
instantiating the retry theorem. -/
theorem final_call_retried_once_witness :
    ∃ fp : ChatParams,
      (ProviderClient.chat_stream ⟨"hi", some "c4", true, none, none, none⟩ "f" "m"
        ⟨Except.ok ⟨[⟨"weather", ArgPayload.pdict []⟩], []⟩, Except.error "boom",
          Except.error "boom2", fun _ => Except.error "u"⟩).effects =
        Effect.providerCall (buildChatParams ⟨"hi", some "c4", true, none, none, none⟩ "m"
          (initialMessages ⟨"hi", some "c4", true, none, none, none⟩)) ::
          (runToolCalls ⟨Except.ok ⟨[⟨"weather", ArgPayload.pdict []⟩], []⟩,
            Except.error "boom", Except.error "boom2", fun _ => Except.error "u"⟩
            [⟨"weather", ArgPayload.pdict []⟩] 0 "").effects ++
          [Effect.providerCall fp, Effect.providerCall fp] ∧
      (∀ f ∈ (runToolCalls ⟨Except.ok ⟨[⟨"weather", ArgPayload.pdict []⟩], []⟩,
          Except.error "boom", Except.error "boom2", fun _ => Except.error "u"⟩
          [⟨"weather", ArgPayload.pdict []⟩] 0 "").effects, f.isProviderCall = false) ∧
      (∀ m2, (⟨Except.ok ⟨[⟨"weather", ArgPayload.pdict []⟩], []⟩, Except.error "boom",
          Except.error "boom2", fun _ => Except.error "u"⟩ : ProviderEnv).finalRetry =
            Except.error m2 →
        (ProviderClient.chat_stream ⟨"hi", some "c4", true, none, none, none⟩ "f" "m"
          ⟨Except.ok ⟨[⟨"weather", ArgPayload.pdict []⟩], []⟩, Except.error "boom",
            Except.error "boom2", fun _ => Except.error "u"⟩).events.getLast? =
          some (StreamEvent.error m2)) ∧
      (∀ fr, (⟨Except.ok ⟨[⟨"weather", ArgPayload.pdict []⟩], []⟩, Except.error "boom",
          Except.error "boom2", fun _ => Except.error "u"⟩ : ProviderEnv).finalRetry =
            Except.ok fr →
        (ProviderClient.chat_stream ⟨"hi", some "c4", true, none, none, none⟩ "f" "m"
          ⟨Except.ok ⟨[⟨"weather", ArgPayload.pdict []⟩], []⟩, Except.error "boom",
            Except.error "boom2", fun _ => Except.error "u"⟩).events.getLast? =
          some StreamEvent.done) :=
  final_call_retried_once ⟨"hi", some "c4", true, none, none, none⟩ "f" "m"
    ⟨Except.ok ⟨[⟨"weather", ArgPayload.pdict []⟩], []⟩, Except.error "boom",
      Except.error "boom2", fun _ => Except.error "u"⟩
    ⟨[⟨"weather", ArgPayload.pdict []⟩], []⟩ "boom" "" rfl rfl rfl rfl

/-- C6 counterexample.  On the no-tool path, a response that carries no
extractable text produces zero `text` events - no fallback apology is
emitted - and the turn still terminates with `done`, contradicting the
claim that exactly one fallback text event is emitted whenever the
streamed response has no extractable text. -/
theorem no_fallback_on_no_tool_path_counterexample :
    ((ProviderClient.chat_stream ⟨"hi", some "c6", false, none, none, none⟩ "f" "m"
      ⟨Except.ok ⟨[], []⟩, Except.error "u", Except.error "u",
        fun _ => Except.error "u"⟩).events.filter StreamEvent.isText).length = 0 ∧
    (ProviderClient.chat_stream ⟨"hi", some "c6", false, none, none, none⟩ "f" "m"
      ⟨Except.ok ⟨[], []⟩, Except.error "u", Except.error "u",
        fun _ => Except.error "u"⟩).events.getLast? = some StreamEvent.done :=
  ⟨by decide, by decide⟩

/-- C6 amended.  The fixed-apology fallback exists only on the tool path,
and only when the final response's content list is empty: there the turn
emits exactly one `text` event, carrying the apology string, before
`done`.  (On the no-tool path, or when content blocks exist but none
carries text, zero `text` events are emitted.) -/
theorem apology_fallback_tool_path (req : ChatRequest) (freshId defaultModel : String)
    (env : ProviderEnv) (resp fr : ChatResponse) (combined : String)
    (hinit : env.initial = Except.ok resp)
    (htc : resp.toolCalls.isEmpty = false)
    (hloop : (runToolCalls env resp.toolCalls 0 "").result = Except.ok combined)
    (hfin : env.finalFirst = Except.ok fr)
    (hempty : fr.content = []) :
    (ProviderClient.chat_stream req freshId defaultModel env).events.filter
      StreamEvent.isText = [StreamEvent.text apologyText] ∧
    (ProviderClient.chat_stream req freshId defaultModel env).events.getLast? =
      some StreamEvent.done := by
  have hflt : (runToolCalls env resp.toolCalls 0 "").events.filter StreamEvent.isText = [] := by
    rw [List.filter_eq_nil_iff]
    intro e he
    have h := (runToolCalls_shape env resp.toolCalls 0 "").1 e he
    cases e <;> simp_all [StreamEvent.isToolEvent, StreamEvent.isText]
  constructor
  · show ((StreamEvent.chatId (chatIdOf req freshId) ::
      (runBody req defaultModel env).events ++
        [terminalOf (runBody req defaultModel env).err]).filter StreamEvent.isText) = _
    rw [runBody]
    simp only [hinit, htc, Bool.false_eq_true, if_false, hloop, hfin]
    rw [streamFinal, hempty]
    simp [List.filter_append, hflt, StreamEvent.isText, terminalOf]
  · show (StreamEvent.chatId (chatIdOf req freshId) ::
      (runBody req defaultModel env).events ++
        [terminalOf (runBody req defaultModel env).err]).getLast? = _
    rw [runBody]
    simp only [hinit, htc, Bool.false_eq_true, if_false, hloop, hfin]
    exact getLast?_cons_concat _ _ _

/-- C6 amended witness: a tool path whose lookup finds nothing and whose
final response has an empty content list emits exactly the apology text
event. -/
theorem apology_fallback_tool_path_witness :
    (ProviderClient.chat_stream ⟨"hi", some "c6w", true, none, none, none⟩ "f" "m"
      ⟨Except.ok ⟨[⟨"wikipedia_search", ArgPayload.pdict [("query", JsonVal.jstr "moon")]⟩], []⟩,
        Except.ok ⟨[], []⟩, Except.error "u", fun _ => Except.ok []⟩).events.filter
      StreamEvent.isText = [StreamEvent.text apologyText] ∧
    (ProviderClient.chat_stream ⟨"hi", some "c6w", true, none, none, none⟩ "f" "m"
      ⟨Except.ok ⟨[⟨"wikipedia_search", ArgPayload.pdict [("query", JsonVal.jstr "moon")]⟩], []⟩,
        Except.ok ⟨[], []⟩, Except.error "u", fun _ => Except.ok []⟩).events.getLast? =
      some StreamEvent.done :=
  apology_fallback_tool_path ⟨"hi", some "c6w", true, none, none, none⟩ "f" "m"
    ⟨Except.ok ⟨[⟨"wikipedia_search", ArgPayload.pdict [("query", JsonVal.jstr "moon")]⟩], []⟩,
      Except.ok ⟨[], []⟩, Except.error "u", fun _ => Except.ok []⟩
    ⟨[⟨"wikipedia_search", ArgPayload.pdict [("query", JsonVal.jstr "moon")]⟩], []⟩
    ⟨[], []⟩ ("No Wikipedia articles found for this query." ++ "\n")
    rfl rfl rfl rfl rfl

/-- C7 counterexample.  An invocation whose arguments are the string
"[1, 2]" - valid JSON, but not an object - makes `tool_params.get` raise
`AttributeError`, which aborts the whole turn with an `error` terminal
event: argument parsing does cause a hard failure for this payload class,
and the raw payload is not used as the query. -/
theorem non_object_arguments_abort_counterexample :
    (ProviderClient.chat_stream ⟨"q", some "c7", true, none, none, none⟩ "f" "m"
      ⟨Except.ok ⟨[⟨"wikipedia_search",
          ArgPayload.pstr "[1, 2]" (some (JsonVal.arr [JsonVal.jnum 1, JsonVal.jnum 2]))⟩], []⟩,
        Except.error "x", Except.error "y", fun _ => Except.error "z"⟩).events =
      [StreamEvent.chatId "c7",
        StreamEvent.error "AttributeError: object has no attribute get"] :=
  by decide

/-- C7 amended.  Argument parsing degrades without failing the turn
exactly for payloads whose parse yields a dict: a string that fails JSON
parsing falls back to using the raw payload as the query; a string
parsing to a JSON object, or a dict payload, uses its `query` field (the
empty string when the field is absent - not the raw payload).  A string
parsing to a JSON non-object, or a non-string non-dict payload, raises
and aborts the turn.  With the fallback dict, the lookup proceeds with
the raw payload as the query. -/
theorem tool_argument_parsing (raw : String) (fs : List (String × JsonVal))
    (items : List JsonVal) (r : String) :
    loadToolParams (ArgPayload.pstr raw none) = Except.ok [("query", JsonVal.jstr raw)] ∧
    queryOfParams [("query", JsonVal.jstr raw)] = Except.ok (some raw) ∧
    loadToolParams (ArgPayload.pstr raw (some (JsonVal.obj fs))) = Except.ok fs ∧
    loadToolParams (ArgPayload.pdict fs) = Except.ok fs ∧
    (jLookup fs "query" = none → queryOfParams fs = Except.ok (some "")) ∧
    (∀ s, jLookup fs "query" = some (JsonVal.jstr s) → queryOfParams fs = Except.ok (some s)) ∧
    (∃ m, loadToolParams (ArgPayload.pstr raw (some (JsonVal.arr items))) = Except.error m) ∧
    (∃ m, loadToolParams (ArgPayload.pother r) = Except.error m) ∧
    (∀ (env : ProviderEnv) (results : List WikiResult), env.wiki 0 = Except.ok results →
      (runToolCalls env [⟨"wikipedia_search", ArgPayload.pstr raw none⟩] 0 "").events =
        [StreamEvent.tool (some raw)] ∧
      (runToolCalls env [⟨"wikipedia_search", ArgPayload.pstr raw none⟩] 0 "").result =
        Except.ok ("" ++ formatWikipediaResults results ++ "\n")) := by
  refine ⟨rfl, rfl, rfl, rfl, ?_, ?_, ⟨_, rfl⟩, ⟨_, rfl⟩, ?_⟩
  · intro h
    rw [queryOfParams, h]
  · intro s h
    rw [queryOfParams, h]
  · intro env results hw
    rw [runToolCalls]
    simp only [if_pos rfl]
    have hload : loadToolParams (ArgPayload.pstr raw none) =
      Except.ok [("query", JsonVal.jstr raw)] := rfl
    have hq : queryOfParams [("query", JsonVal.jstr raw)] = Except.ok (some raw) := rfl
    simp only [hload, hq, hw]
    exact ⟨rfl, rfl⟩

/-- C7 amended witness: instantiated at a malformed-JSON string, an
object payload carrying a string query, an array payload and a list
payload. -/
theorem tool_argument_parsing_witness :
    loadToolParams (ArgPayload.pstr "not json" none) =
      Except.ok [("query", JsonVal.jstr "not json")] ∧
    queryOfParams [("query", JsonVal.jstr "not json")] = Except.ok (some "not json") ∧
    loadToolParams (ArgPayload.pstr "not json"
      (some (JsonVal.obj [("query", JsonVal.jstr "moon")]))) =
      Except.ok [("query", JsonVal.jstr "moon")] ∧
    loadToolParams (ArgPayload.pdict [("query", JsonVal.jstr "moon")]) =
      Except.ok [("query", JsonVal.jstr "moon")] ∧
    (jLookup [("query", JsonVal.jstr "moon")] "query" = none →
      queryOfParams [("query", JsonVal.jstr "moon")] = Except.ok (some "")) ∧
    (∀ s, jLookup [("query", JsonVal.jstr "moon")] "query" = some (JsonVal.jstr s) →
      queryOfParams [("query", JsonVal.jstr "moon")] = Except.ok (some s)) ∧
    (∃ m, loadToolParams (ArgPayload.pstr "not json" (some (JsonVal.arr []))) =
      Except.error m) ∧
    (∃ m, loadToolParams (ArgPayload.pother "[1, 2]") = Except.error m) ∧
    (∀ (env : ProviderEnv) (results : List WikiResult), env.wiki 0 = Except.ok results →
      (runToolCalls env [⟨"wikipedia_search", ArgPayload.pstr "not json" none⟩] 0 "").events =
        [StreamEvent.tool (some "not json")] ∧
      (runToolCalls env [⟨"wikipedia_search", ArgPayload.pstr "not json" none⟩] 0 "").result =
        Except.ok ("" ++ formatWikipediaResults results ++ "\n")) :=
  tool_argument_parsing "not json" [("query", JsonVal.jstr "moon")] [] "[1, 2]"

theorem search_of_body (env : WikiEnv) (q : String) (l : Int)
    (h : searchBody env q l = Except.ok [] ∨ ∃ m, searchBody env q l = Except.error m) :
    WikipediaSearchTool.search env q l = [] := by
  rcases h with h | ⟨m, h⟩ <;> rw [WikipediaSearchTool.search, h]

/-- C8.  For every query and limit, any transport failure of either HTTP
call (raised exception, non-200 status, malformed JSON body) and any
phase-1 payload with no usable hits make `search` return the empty list;
by construction (`search` wraps the try-block in the catch-all handlers)
no exception ever propagates to the caller. -/
theorem search_absorbs_transport_failures (env : WikiEnv) (q : String) (l : Int)
    (h : httpFails env.first ∨ firstPayloadBad env ∨ httpFails env.second) :
    WikipediaSearchTool.search env q l = [] := by
  apply search_of_body
  rcases h with h1 | hp | h2
  · cases hf : env.first with
    | raises m =>
      exact Or.inr ⟨m, by simp only [searchBody, hf]⟩
    | resp st body =>
      rw [hf] at h1
      simp only [httpFails] at h1
      by_cases hst : st = 200
      · rcases h1 with hst' | ⟨m, hb⟩
        · exact absurd hst hst'
        · right
          refine ⟨m, ?_⟩
          simp only [searchBody, hf, hb]
          rw [if_pos hst]
      · left
        simp only [searchBody, hf]
        rw [if_neg hst]
  · rcases hp with ⟨j, hf, hbad⟩
    simp only [searchBody, hf, if_true]
    rcases hbad with ⟨m, hh⟩ | hfal
    · exact Or.inr ⟨m, by simp only [hh]⟩
    · rcases hh : hitsOf j with m | hits
      · exact Or.inr ⟨m, by simp only [hh]⟩
      · left
        simp [hh, hfal hits hh]
  · cases hf : env.first with
    | raises m =>
      exact Or.inr ⟨m, by simp only [searchBody, hf]⟩
    | resp st body =>
      simp only [searchBody, hf]
      by_cases hst : st = 200
      · rw [if_pos hst]
        cases body with
        | error m => exact Or.inr ⟨m, rfl⟩
        | ok j =>
          rcases hh : hitsOf j with m | hits
          · exact Or.inr ⟨m, by simp only [hh]⟩
          · simp only [hh]
            by_cases ht : jTruthy hits
            · rw [if_pos ht]
              rcases hi : pyIter hits with m | hitList
              · exact Or.inr ⟨m, by simp only [hi]⟩
              · simp only [hi]
                rcases hpids : pageIdsOf hitList with m | pids
                · exact Or.inr ⟨m, by simp only [hpids]⟩
                · simp only [hpids]
                  cases hs : env.second with
                  | raises m => exact Or.inr ⟨m, by simp only [hs]⟩
                  | resp st2 body2 =>
                    rw [hs] at h2
                    simp only [httpFails] at h2
                    simp only [hs]
                    by_cases hst2 : st2 = 200
                    · rcases h2 with hst2' | ⟨m, hb2⟩
                      · exact absurd hst2 hst2'
                      · exact Or.inr ⟨m, by simp only [hb2]; rw [if_pos hst2]⟩
                    · left
                      rw [if_neg hst2]
            · left
              simp [ht]
      · left
        rw [if_neg hst]

/-- C8 witness: a search whose first HTTP call raises a connection error
returns the empty list. -/
theorem search_absorbs_transport_failures_witness :
    WikipediaSearchTool.search
      ⟨HttpOutcome.raises "ConnectionError", HttpOutcome.raises "unused", fun s => s⟩
      "moon landing" 3 = [] :=
  search_absorbs_transport_failures
    ⟨HttpOutcome.raises "ConnectionError", HttpOutcome.raises "unused", fun s => s⟩
    "moon landing" 3 (Or.inl trivial)

theorem jLookup_filter_none {α : Type} (l : List (String × α)) (k : String)
    (p : String × α → Bool) (h : ∀ e ∈ l, e.1 = k → p e = false) :
    jLookup (l.filter p) k = none := by
  induction l with
  | nil => rfl
  | cons e rest ih =>
    have hrest : ∀ x ∈ rest, x.1 = k → p x = false :=
      fun x hx => h x (List.mem_cons_of_mem e hx)
    rw [List.filter_cons]
    by_cases hp : p e
    · rw [if_pos hp]
      have hek : (e.1 == k) = false := by
        by_cases heq : e.1 = k
        · have := h e (List.mem_cons_self e rest) heq
          rw [this] at hp
          exact absurd hp (by simp)
        · simp [heq]
      rw [jLookup, List.find?_cons, hek]
      exact ih hrest
    · rw [if_neg hp]
      exact ih hrest

/-- C9 counterexample.  With `max_messages = 0` and a non-empty history,
`get_messages` returns the whole history instead of the last zero turns:
`messages[-0:]` is Python for the entire list. -/
theorem get_messages_zero_count_counterexample :
    ((ConversationStore.mkStore 24).add_message "c1" "user" "hi" 0).get_messages "c1" 0 0 =
      [⟨"user", "hi"⟩] ∧
    (([] : List StoredMsg) = [(⟨"user", "hi"⟩ : StoredMsg)] → False) :=
  ⟨rfl, by intro h; simp at h⟩

/-- C9 amended.  For every store state, conversation id and count
`max_messages ≥ 1`, `get_messages` returns the empty sequence when the id
is absent after the expiry sweep (in particular when every record under
that id has expired), the full history in append order when it has at
most `max_messages` turns, and exactly the last `max_messages` turns
(oldest-first) otherwise.  For `max_messages = 0` the code instead
returns the full history (see the counterexample). -/
theorem get_messages_amended (st : ConversationStore) (cid : String) (now : Int)
    (m : Nat) (hm : 1 ≤ m) :
    (jLookup (st.cleanupExpired now).conversations cid = none →
      st.get_messages cid m now = []) ∧
    (∀ d, jLookup (st.cleanupExpired now).conversations cid = some d →
      d.messages.length ≤ m → st.get_messages cid m now = d.messages) ∧
    (∀ d, jLookup (st.cleanupExpired now).conversations cid = some d →
      m < d.messages.length →
      st.get_messages cid m now = d.messages.drop (d.messages.length - m)) ∧
    ((∀ e ∈ st.conversations, e.1 = cid → st.ttl_seconds < now - e.2.last_updated) →
      st.get_messages cid m now = []) := by
  refine ⟨?_, ?_, ?_, ?_⟩
  · intro h
    rw [ConversationStore.get_messages]
    simp only [h]
  · intro d h hle
    rw [ConversationStore.get_messages]
    simp only [h]
    rw [if_neg (by omega)]
  · intro d h hlt
    rw [ConversationStore.get_messages]
    simp only [h]
    rw [if_pos hlt, pyTailSlice, if_neg (by omega)]
  · intro hexp
    rw [ConversationStore.get_messages]
    have hnone : jLookup (st.cleanupExpired now).conversations cid = none := by
      rw [ConversationStore.cleanupExpired]
      apply jLookup_filter_none
      intro e he heq
      have := hexp e he heq
      simp only [decide_eq_false_iff_not]
      omega
    simp only [hnone]

/-- C9 amended witness: two appended turns read back oldest-first with
`max_messages = 1` returning exactly the last turn. -/
theorem get_messages_amended_witness :
    (jLookup (((((ConversationStore.mkStore 24).add_message "c1" "user" "hi" 0).add_message
        "c1" "assistant" "hello" 1).cleanupExpired 2)).conversations "c1" = none →
      ((((ConversationStore.mkStore 24).add_message "c1" "user" "hi" 0).add_message
        "c1" "assistant" "hello" 1)).get_messages "c1" 1 2 = []) ∧
    (∀ d, jLookup (((((ConversationStore.mkStore 24).add_message "c1" "user" "hi"
        0).add_message "c1" "assistant" "hello" 1).cleanupExpired 2)).conversations "c1" =
        some d →
      d.messages.length ≤ 1 →
      ((((ConversationStore.mkStore 24).add_message "c1" "user" "hi" 0).add_message
        "c1" "assistant" "hello" 1)).get_messages "c1" 1 2 = d.messages) ∧
    (∀ d, jLookup (((((ConversationStore.mkStore 24).add_message "c1" "user" "hi"
        0).add_message "c1" "assistant" "hello" 1).cleanupExpired 2)).conversations "c1" =
        some d →
      1 < d.messages.length →
      ((((ConversationStore.mkStore 24).add_message "c1" "user" "hi" 0).add_message
        "c1" "assistant" "hello" 1)).get_messages "c1" 1 2 =
        d.messages.drop (d.messages.length - 1)) ∧
    ((∀ e ∈ ((((ConversationStore.mkStore 24).add_message "c1" "user" "hi" 0).add_message
        "c1" "assistant" "hello" 1)).conversations, e.1 = "c1" →
        ((((ConversationStore.mkStore 24).add_message "c1" "user" "hi" 0).add_message
          "c1" "assistant" "hello" 1)).ttl_seconds < 2 - e.2.last_updated) →
      ((((ConversationStore.mkStore 24).add_message "c1" "user" "hi" 0).add_message
        "c1" "assistant" "hello" 1)).get_messages "c1" 1 2 = []) :=
  get_messages_amended (((ConversationStore.mkStore 24).add_message "c1" "user" "hi"
    0).add_message "c1" "assistant" "hello" 1) "c1" 2 1 (by decide)

/-- C10.  When the initial response carries a non-empty tool-call list
none of whose invocations is named `wikipedia_search`, the turn still
takes the tool path without any lookup or `tool` event: the effect trace
is exactly the initial call followed by the final call, whose message
list appends one system turn holding only the fixed header and
instruction text (no lookup results), with tools stripped and tool choice
forced to "none". -/
theorem unmatched_invocations_tool_path (req : ChatRequest) (freshId defaultModel : String)
    (env : ProviderEnv) (resp fr : ChatResponse)
    (hinit : env.initial = Except.ok resp)
    (htc : resp.toolCalls.isEmpty = false)
    (hnone : ∀ tc ∈ resp.toolCalls, tc.name ≠ "wikipedia_search")
    (hfin : env.finalFirst = Except.ok fr) :
    (ProviderClient.chat_stream req freshId defaultModel env).effects =
      [Effect.providerCall (buildChatParams req defaultModel (initialMessages req)),
        Effect.providerCall (noToolsFinal (buildChatParams req defaultModel
          (initialMessages req ++ [⟨"system",
            "Relevant information from Wikipedia (use as context):\n\n\nPlease answer the user\x27s last question directly using this context. Do not call any tools."⟩])))] ∧
    (ProviderClient.chat_stream req freshId defaultModel env).events.filter
      StreamEvent.isToolEvent = [] ∧
    (noToolsFinal (buildChatParams req defaultModel (initialMessages req ++ [⟨"system",
      "Relevant information from Wikipedia (use as context):\n\n\nPlease answer the user\x27s last question directly using this context. Do not call any tools."⟩]))).tools
      = false ∧
    (noToolsFinal (buildChatParams req defaultModel (initialMessages req ++ [⟨"system",
      "Relevant information from Wikipedia (use as context):\n\n\nPlease answer the user\x27s last question directly using this context. Do not call any tools."⟩]))).tool_choice
      = some "none" := by
  have hctx : contextMsg "" = (⟨"system",
    "Relevant information from Wikipedia (use as context):\n\n\nPlease answer the user\x27s last question directly using this context. Do not call any tools."⟩ : ChatMsg) := rfl
  have hloop := runToolCalls_noMatch env resp.toolCalls hnone 0 ""
  refine ⟨?_, ?_, rfl, rfl⟩
  · show (runBody req defaultModel env).effects = _
    rw [runBody]
    simp only [hinit, htc, Bool.false_eq_true, if_false, hloop, hfin, hctx]
    rfl
  · show ((StreamEvent.chatId (chatIdOf req freshId) ::
      (runBody req defaultModel env).events ++
        [terminalOf (runBody req defaultModel env).err]).filter StreamEvent.isToolEvent) = _
    rw [runBody]
    simp only [hinit, htc, Bool.false_eq_true, if_false, hloop, hfin, hctx]
    have h1 : (streamFinal fr).filter StreamEvent.isToolEvent = [] := by
      rw [List.filter_eq_nil_iff]
      intro e he
      have := streamFinal_text fr e he
      cases e <;> simp_all [StreamEvent.isText, StreamEvent.isToolEvent]
    simp [h1, StreamEvent.isToolEvent, terminalOf]

/-- C10 witness: a turn whose initial response carries a single
invocation named `get_weather` takes the tool path with an empty context
block and a forced no-tools final call. -/
theorem unmatched_invocations_tool_path_witness :
    (ProviderClient.chat_stream ⟨"hi", some "c10", true, none, none, none⟩ "f" "m"
      ⟨Except.ok ⟨[⟨"get_weather", ArgPayload.pdict []⟩], []⟩, Except.ok ⟨[], [some "ok"]⟩,
        Except.error "u", fun _ => Except.error "u"⟩).effects =
      [Effect.providerCall (buildChatParams ⟨"hi", some "c10", true, none, none, none⟩ "m"
        (initialMessages ⟨"hi", some "c10", true, none, none, none⟩)),
        Effect.providerCall (noToolsFinal (buildChatParams
          ⟨"hi", some "c10", true, none, none, none⟩ "m"
          (initialMessages ⟨"hi", some "c10", true, none, none, none⟩ ++ [⟨"system",
            "Relevant information from Wikipedia (use as context):\n\n\nPlease answer the user\x27s last question directly using this context. Do not call any tools."⟩])))] ∧
    (ProviderClient.chat_stream ⟨"hi", some "c10", true, none, none, none⟩ "f" "m"
      ⟨Except.ok ⟨[⟨"get_weather", ArgPayload.pdict []⟩], []⟩, Except.ok ⟨[], [some "ok"]⟩,
        Except.error "u", fun _ => Except.error "u"⟩).events.filter
      StreamEvent.isToolEvent = [] ∧
    (noToolsFinal (buildChatParams ⟨"hi", some "c10", true, none, none, none⟩ "m"
      (initialMessages ⟨"hi", some "c10", true, none, none, none⟩ ++ [⟨"system",
        "Relevant information from Wikipedia (use as context):\n\n\nPlease answer the user\x27s last question directly using this context. Do not call any tools."⟩]))).tools
      = false ∧
    (noToolsFinal (buildChatParams ⟨"hi", some "c10", true, none, none, none⟩ "m"
      (initialMessages ⟨"hi", some "c10", true, none, none, none⟩ ++ [⟨"system",
        "Relevant information from Wikipedia (use as context):\n\n\nPlease answer the user\x27s last question directly using this context. Do not call any tools."⟩]))).tool_choice
      = some "none" :=
  unmatched_invocations_tool_path ⟨"hi", some "c10", true, none, none, none⟩ "f" "m"
    ⟨Except.ok ⟨[⟨"get_weather", ArgPayload.pdict []⟩], []⟩, Except.ok ⟨[], [some "ok"]⟩,
      Except.error "u", fun _ => Except.error "u"⟩
    ⟨[⟨"get_weather", ArgPayload.pdict []⟩], []⟩ ⟨[], [some "ok"]⟩
    rfl rfl (by intro tc htc; simp at htc; subst htc; simp) rfl
